import Mathlib

/-!
Shallow embedding of the admin authorization and moderation core of the
repository (server/routes/admin.ts, plus `FirebaseAdminService.verifyAdmin`
as printed in SECURITY.md).  External collaborators are parameters:

* the Firebase identity provider (`auth.verifyIdToken`) is a function
  `oracle : String → Except String String` returning either the verified
  uid or the provider's error message;
* the Firestore `users` collection is a function
  `String → Option UserRecord` (document lookup by uid);
* the Firestore `ip_bans` and `user_ips` collections are lists of records
  in document order (equality-filtered collection scans preserve order);
* zod's `.ip()` well-formedness check is a parameter `ipValid`, since the
  zod library is not part of this repository.

Timestamps are modelled as `Nat`.  Handlers are instrumented with a list of
`Effect` values recording every identity-provider and store access, so that
"no store call occurs" is expressible.
-/

namespace AdminCore

/-- A document of the `users` collection, restricted to the field the core
reads.  `isAdmin = none` models an absent field (JS `undefined`). -/
structure UserRecord where
  isAdmin : Option Bool
  deriving Repr, DecidableEq

/-- Errors thrown out of `FirebaseAdminService.verifyAdmin`:
`tokenInvalid m` models the identity provider rejecting the token with
message `m`; `notAdmin` models the explicit
`throw new Error("Unauthorized: Not an admin")`. -/
inductive AdminError where
  | tokenInvalid (msg : String)
  | notAdmin
  deriving Repr, DecidableEq

/-- The `message` property of the thrown `Error`, as read by the route
handlers' catch blocks (`error.message`). -/
def errorMessage : AdminError → String
  | .tokenInvalid m => m
  | .notAdmin => "Unauthorized: Not an admin"

/-- One identity-provider or persistent-store access, recorded in handler
traces. -/
inductive Effect where
  | oracleVerify (token : String)
  | storeGet (coll doc : String)
  | storeQuery (coll : String)
  | storeWrite (coll : String)
  deriving Repr, DecidableEq

/-- `FirebaseAdminService.verifyAdmin` as printed in SECURITY.md:
verify the ID token with the provider, then read
`users/{decodedToken.uid}`; throw "Unauthorized: Not an admin" when
`!userDoc.exists || !userDoc.data()?.isAdmin` (document missing, or the
`isAdmin` field absent or not `true`); otherwise return the uid.
The second component is the trace of external calls made. -/
def verifyAdmin (oracle : String → Except String String)
    (users : String → Option UserRecord) (idToken : String) :
    Except AdminError String × List Effect :=
  match oracle idToken with
  | .error m => (.error (.tokenInvalid m), [.oracleVerify idToken])
  | .ok uid =>
      match users uid with
      | none => (.error .notAdmin, [.oracleVerify idToken, .storeGet "users" uid])
      | some u =>
          if u.isAdmin = some true then
            (.ok uid, [.oracleVerify idToken, .storeGet "users" uid])
          else
            (.error .notAdmin, [.oracleVerify idToken, .storeGet "users" uid])

end AdminCore

namespace AdminCore

/-- Claim C1: for every subject identity produced by token verification,
`verifyAdmin` fails with `NotAdmin` whenever the subject's user record does
not exist or its `isAdmin` flag is not `true`, and it returns the subject's
identifier only when the record exists with `isAdmin = true`; there is no
path that treats a caller as admin when the flag is false or absent. -/
theorem C1_verifyAdmin_fails_closed (oracle : String → Except String String)
    (users : String → Option UserRecord) (t : String) :
    (∀ uid, oracle t = .ok uid → users uid = none →
        (verifyAdmin oracle users t).fst = .error .notAdmin)
    ∧ (∀ uid u, oracle t = .ok uid → users uid = some u →
        u.isAdmin ≠ some true →
        (verifyAdmin oracle users t).fst = .error .notAdmin)
    ∧ (∀ a, (verifyAdmin oracle users t).fst = .ok a →
        oracle t = .ok a ∧ ∃ u, users a = some u ∧ u.isAdmin = some true) := by
  refine ⟨?_, ?_, ?_⟩
  · intro uid ho hu
    simp only [verifyAdmin, ho, hu]
  · intro uid u ho hu hflag
    simp only [verifyAdmin, ho, hu, if_neg hflag]
  · intro a ha
    cases ho : oracle t with
    | error m => simp [verifyAdmin, ho] at ha
    | ok uid =>
        cases hu : users uid with
        | none => simp [verifyAdmin, ho, hu] at ha
        | some u =>
            by_cases hflag : u.isAdmin = some true
            · have hua : uid = a := by
                simpa [verifyAdmin, ho, hu, hflag] using ha
              rw [← hua]
              exact ⟨rfl, u, hu, hflag⟩
            · simp [verifyAdmin, ho, hu, hflag] at ha

/-- Concrete identity provider used in witnesses: accepts one token. -/
def oracleW : String → Except String String :=
  fun t => if t = "tok-abcdefgh" then .ok "uid-nonadmin" else .error "bad token"

/-- Concrete users collection used in witnesses: one non-admin user. -/
def usersW : String → Option UserRecord :=
  fun uid => if uid = "uid-nonadmin" then some ⟨some false⟩ else none

/-- Witness for C1: a concrete subject whose record exists with
`isAdmin = false` is refused with `NotAdmin`. -/
theorem C1_witness :
    (verifyAdmin oracleW usersW "tok-abcdefgh").fst = .error .notAdmin :=
  (C1_verifyAdmin_fails_closed oracleW usersW "tok-abcdefgh").2.1
    "uid-nonadmin" ⟨some false⟩ rfl rfl (by decide)

/-! ## Input validator (zod schemas of server/routes/admin.ts)

zod executes the checks of a `ZodString` chain in the order they are
chained; `.min(10).max(3000).regex(...)` validates and `.trim()` at the end
of a chain transforms the value after the earlier checks have run on the
untrimmed string.  `parse` throws a `ZodError` when any check fails. -/

/-- One character of the token charset `[A-Za-z0-9_\-.]` (ASCII letters,
digits, underscore, hyphen, dot). -/
def tokenChar (c : Char) : Bool :=
  c.isAlpha || c.isDigit || c = '_' || c = '-' || c = '.'

/-- The `idToken` checks shared by every schema:
`.string().min(10).max(3000).regex(/^[A-Za-z0-9_\-\.]+$/)`. -/
def tokenOK (s : String) : Bool :=
  decide (10 ≤ s.length) && decide (s.length ≤ 3000) && s.data.all tokenChar

/-- The `userId` checks: `.string().min(10).max(100)`. -/
def userIdOK (s : String) : Bool :=
  decide (10 ≤ s.length) && decide (s.length ≤ 100)

/-- The `duration` checks: `.number().int().min(1).max(36500)` (the integer
constraint is carried by the `Int` type of the model). -/
def durationOK (d : Int) : Bool :=
  decide (1 ≤ d) && decide (d ≤ 36500)

/-- The `validityDays` checks: `.number().int().min(1).max(3650)`. -/
def validityOK (d : Int) : Bool :=
  decide (1 ≤ d) && decide (d ≤ 3650)

/-- The `plan` check: `.enum(["Free", "Classic", "Pro"])`. -/
def planOK (s : String) : Bool :=
  s = "Free" || s = "Classic" || s = "Pro"

/-- JS `String.prototype.trim` (drop leading and trailing whitespace),
modelled over the character list so it computes by structural recursion. -/
def jsTrim (s : String) : String :=
  ⟨((s.data.dropWhile Char.isWhitespace).reverse.dropWhile
      Char.isWhitespace).reverse⟩

/-- JS `h.startsWith("Bearer ")`, modelled over the character list. -/
def bearerHeader (h : String) : Bool :=
  decide (h.data.take 7 = "Bearer ".data)

/-- JS `h.slice(7)`, modelled over the character list. -/
def sliceSeven (h : String) : String :=
  ⟨h.data.drop 7⟩

/-- The `reason` chain `.string().min(5).max(500).trim()`: the length
bounds run on the raw string, then `.trim()` transforms the value, so the
parsed output is the trimmed string while the bounds were checked against
the untrimmed one. -/
def reasonCheck (s : String) : Option String :=
  if 5 ≤ s.length ∧ s.length ≤ 500 then some (jsTrim s) else none

/-- Body of POST /api/admin/verify. -/
structure VerifyAdminBody where
  idToken : String
  deriving Repr, DecidableEq

/-- `VerifyAdminSchema.parse`. -/
def parseVerifyAdmin (b : VerifyAdminBody) : Option VerifyAdminBody :=
  if tokenOK b.idToken then some b else none

/-- Body of POST /api/admin/ban-user. -/
structure BanUserBody where
  idToken : String
  userId : String
  reason : String
  duration : Int
  deriving Repr, DecidableEq

/-- `BanUserSchema.parse`: all field checks must pass; the returned value
carries the trimmed `reason`. -/
def parseBanUser (b : BanUserBody) : Option BanUserBody :=
  if tokenOK b.idToken && userIdOK b.userId && durationOK b.duration then
    (reasonCheck b.reason).map fun r => { b with reason := r }
  else none

/-- Body of POST /api/admin/create-license. -/
structure CreateLicenseBody where
  idToken : String
  plan : String
  validityDays : Int
  deriving Repr, DecidableEq

/-- `CreateLicenseSchema.parse`. -/
def parseCreateLicense (b : CreateLicenseBody) : Option CreateLicenseBody :=
  if tokenOK b.idToken && planOK b.plan && validityOK b.validityDays then
    some b
  else none

/-- Body of POST /api/admin/ban-ip.  zod's `.ip()` well-formedness check is
the library parameter `ipValid` (v4-or-v6 acceptance of
`z.string().ip({version:"v4"}).or(z.string().ip({version:"v6"}))`). -/
structure BanIPBody where
  idToken : String
  ipAddress : String
  reason : String
  duration : Int
  deriving Repr, DecidableEq

/-- `BanIPSchema.parse`. -/
def parseBanIP (ipValid : String → Bool) (b : BanIPBody) : Option BanIPBody :=
  if tokenOK b.idToken && ipValid b.ipAddress && durationOK b.duration then
    (reasonCheck b.reason).map fun r => { b with reason := r }
  else none

/-- Body of POST /api/admin/delete-user. -/
structure DeleteUserBody where
  idToken : String
  userId : String
  deriving Repr, DecidableEq

/-- The inline schema of `handleDeleteUser`: the same `idToken` and
`userId` checks as `BanUserSchema`. -/
def parseDeleteUser (b : DeleteUserBody) : Option DeleteUserBody :=
  if tokenOK b.idToken && userIdOK b.userId then some b else none

/-! ## Moderation service operations

The service module (server/lib/firebase-admin.ts) is not among the
sources; the operations below are modelled from the spec.  Only their
error behaviour and external calls matter to the claims. -/

/-- Stand-in for the library-generated `ZodError` aggregate message (its
exact text is produced by zod, not by this repository; no claim depends on
it). -/
def zodMessage : String := "Invalid input"

/-- The value caught by a route handler's catch block: a `ZodError` thrown
by `.parse`, or an `Error` carrying a message. -/
inductive Thrown where
  | zodErr
  | err (msg : String)
  deriving Repr, DecidableEq

/-- `error.message` as read inside the catch blocks. -/
def thrownMessage : Thrown → String
  | .zodErr => zodMessage
  | .err m => m

/-- Modelled from the spec: `FirebaseAdminService.banUser` — fails with
`TargetNotFound` when the target Subject does not exist, otherwise creates
a Ban Record and returns its identifier.  The thrown message
"User not found" is the text `handleBanUser`'s catch block compares
against. -/
def banUserOp (users : String → Option UserRecord)
    (admin target reason : String) (duration : Int) :
    Except String String × List Effect :=
  match users target with
  | none => (.error "User not found", [.storeGet "users" target])
  | some _ =>
      (.ok ("ban-" ++ target ++ "-by-" ++ admin),
        [.storeGet "users" target, .storeWrite "user_bans"])

/-- Modelled from the spec: `FirebaseAdminService.banIP` — same shape as
`banUser` but keyed on a validated IP literal, with no existence check
against any address registry. -/
def banIPOp (admin ipAddress reason : String) (duration : Int) :
    Except String String × List Effect :=
  (.ok ("ipban-" ++ ipAddress ++ "-by-" ++ admin), [.storeWrite "ip_bans"])

/-- Modelled from the spec: `FirebaseAdminService.deleteUser` — fails with
`TargetNotFound` when the target is absent, otherwise removes the Subject
record. -/
def deleteUserOp (users : String → Option UserRecord)
    (admin target : String) : Except String Unit × List Effect :=
  match users target with
  | none => (.error "User not found", [.storeGet "users" target])
  | some _ => (.ok (), [.storeGet "users" target, .storeWrite "users"])

/-- Modelled from the spec: `FirebaseAdminService.createLicense` —
generates and persists a license key (key entropy is out of scope; no
claim depends on the key value). -/
def createLicenseOp (admin plan : String) (validityDays : Int) :
    Except String String × List Effect :=
  (.ok ("license-by-" ++ admin), [.storeWrite "licenses"])

/-- Modelled from the spec: `FirebaseAdminService.getAllUsers` — an
equality-free scan of the `users` collection. -/
def getAllUsersOp : List String × List Effect := ([], [.storeQuery "users"])

/-! ## Route handlers (server/routes/admin.ts) -/

/-- An HTTP response: `success` carries the JSON success payload,
`failure status e m` the `res.status(status).json({error: e, message: m})`
shape. -/
inductive ApiResp (α : Type) where
  | success (payload : α)
  | failure (status : Nat) (error msg : String)
  deriving Repr, DecidableEq

/-- `handleVerifyAdmin`: parse the body with `VerifyAdminSchema`, call
`verifyAdmin`, answer `{success, adminUid}`; the catch block answers
status 400 for a `ZodError` and 401 otherwise, body
`{error: "Unauthorized", message: error.message}`. -/
def handleVerifyAdmin (oracle : String → Except String String)
    (users : String → Option UserRecord) (body : VerifyAdminBody) :
    ApiResp String × List Effect :=
  match parseVerifyAdmin body with
  | none => (.failure 400 "Unauthorized" zodMessage, [])
  | some v =>
      match verifyAdmin oracle users v.idToken with
      | (.ok uid, effs) => (.success uid, effs)
      | (.error e, effs) => (.failure 401 "Unauthorized" (errorMessage e), effs)

/-- The status computed by `handleBanUser`'s catch block:
400 for a `ZodError` or an `Error` whose message is exactly
"User not found", 401 otherwise. -/
def banUserStatus : Thrown → Nat
  | .zodErr => 400
  | .err m => if m = "User not found" then 400 else 401

/-- `handleBanUser`: parse with `BanUserSchema`, verify the admin, then
`banUser(adminUid, userId, reason, duration)`. -/
def handleBanUser (oracle : String → Except String String)
    (users : String → Option UserRecord) (body : BanUserBody) :
    ApiResp String × List Effect :=
  match parseBanUser body with
  | none => (.failure 400 "Failed to ban user" zodMessage, [])
  | some v =>
      match verifyAdmin oracle users v.idToken with
      | (.error e, effs) =>
          (.failure (banUserStatus (.err (errorMessage e)))
            "Failed to ban user" (errorMessage e), effs)
      | (.ok adminUid, effs) =>
          match banUserOp users adminUid v.userId v.reason v.duration with
          | (.error m, effs2) =>
              (.failure (banUserStatus (.err m)) "Failed to ban user" m,
                effs ++ effs2)
          | (.ok banId, effs2) => (.success banId, effs ++ effs2)

/-- `handleGetAllUsers`: token from the `Authorization: Bearer ...` header,
checked only for emptiness and length 10–3000 after `slice(7).trim()`
(no charset check), then `verifyAdmin` and the users scan; every failure is
reported with status 401. -/
def handleGetAllUsers (oracle : String → Except String String)
    (users : String → Option UserRecord) (authHeader : Option String) :
    ApiResp (List String) × List Effect :=
  match authHeader with
  | none => (.failure 401 "Unauthorized" "Missing or invalid authorization header", [])
  | some h =>
      if bearerHeader h then
        let idToken := jsTrim (sliceSeven h)
        if idToken = "" || decide (idToken.length < 10) || decide (3000 < idToken.length) then
          (.failure 401 "Unauthorized" "Invalid token format", [])
        else
          match verifyAdmin oracle users idToken with
          | (.error e, effs) => (.failure 401 "Unauthorized" (errorMessage e), effs)
          | (.ok _, effs) => (.success getAllUsersOp.fst, effs ++ getAllUsersOp.snd)
      else
        (.failure 401 "Unauthorized" "Missing or invalid authorization header", [])

/-- `handleCreateLicense`: parse with `CreateLicenseSchema`, verify the
admin, then `createLicense(adminUid, plan, validityDays)`; catch block:
400 for `ZodError`, else 401. -/
def handleCreateLicense (oracle : String → Except String String)
    (users : String → Option UserRecord) (body : CreateLicenseBody) :
    ApiResp String × List Effect :=
  match parseCreateLicense body with
  | none => (.failure 400 "Failed to create license" zodMessage, [])
  | some v =>
      match verifyAdmin oracle users v.idToken with
      | (.error e, effs) =>
          (.failure 401 "Failed to create license" (errorMessage e), effs)
      | (.ok adminUid, effs) =>
          match createLicenseOp adminUid v.plan v.validityDays with
          | (.error m, effs2) =>
              (.failure 401 "Failed to create license" m, effs ++ effs2)
          | (.ok key, effs2) => (.success key, effs ++ effs2)

/-- `handleBanIP`: parse with `BanIPSchema`, verify the admin, then
`banIP(adminUid, ipAddress, reason, duration)`; catch block:
400 for `ZodError`, else 401. -/
def handleBanIP (ipValid : String → Bool)
    (oracle : String → Except String String)
    (users : String → Option UserRecord) (body : BanIPBody) :
    ApiResp String × List Effect :=
  match parseBanIP ipValid body with
  | none => (.failure 400 "Failed to ban IP" zodMessage, [])
  | some v =>
      match verifyAdmin oracle users v.idToken with
      | (.error e, effs) => (.failure 401 "Failed to ban IP" (errorMessage e), effs)
      | (.ok adminUid, effs) =>
          match banIPOp adminUid v.ipAddress v.reason v.duration with
          | (.error m, effs2) => (.failure 401 "Failed to ban IP" m, effs ++ effs2)
          | (.ok banId, effs2) => (.success banId, effs ++ effs2)

/-- `handleDeleteUser`: parse the inline schema, verify the admin, then
`deleteUser(adminUid, userId)`; catch block: 400 for `ZodError`, 401 for
every other error — including "User not found". -/
def handleDeleteUser (oracle : String → Except String String)
    (users : String → Option UserRecord) (body : DeleteUserBody) :
    ApiResp Unit × List Effect :=
  match parseDeleteUser body with
  | none => (.failure 400 "Failed to delete user" zodMessage, [])
  | some v =>
      match verifyAdmin oracle users v.idToken with
      | (.error e, effs) =>
          (.failure 401 "Failed to delete user" (errorMessage e), effs)
      | (.ok adminUid, effs) =>
          match deleteUserOp users adminUid v.userId with
          | (.error m, effs2) => (.failure 401 "Failed to delete user" m, effs ++ effs2)
          | (.ok _, effs2) => (.success (), effs ++ effs2)

/-! ## Attribution projections

For each moderation handler, the admin identifier it passes as the first
argument to the service operation (its audit attribution); `none` when
validation or verification fails and no operation runs.  Each projection
mirrors the corresponding handler's data flow: the identifier is always
`(verifyAdmin oracle users validated.idToken).fst`. -/

/-- The admin identifier `handleBanUser` attributes the ban to. -/
def banUserAttribution (oracle : String → Except String String)
    (users : String → Option UserRecord) (body : BanUserBody) : Option String :=
  match parseBanUser body with
  | none => none
  | some v => ((verifyAdmin oracle users v.idToken).fst).toOption

/-- The admin identifier `handleBanIP` attributes the ban to. -/
def banIPAttribution (ipValid : String → Bool)
    (oracle : String → Except String String)
    (users : String → Option UserRecord) (body : BanIPBody) : Option String :=
  match parseBanIP ipValid body with
  | none => none
  | some v => ((verifyAdmin oracle users v.idToken).fst).toOption

/-- The admin identifier `handleDeleteUser` attributes the deletion to. -/
def deleteUserAttribution (oracle : String → Except String String)
    (users : String → Option UserRecord) (body : DeleteUserBody) : Option String :=
  match parseDeleteUser body with
  | none => none
  | some v => ((verifyAdmin oracle users v.idToken).fst).toOption

/-- The admin identifier `handleCreateLicense` attributes the license to. -/
def createLicenseAttribution (oracle : String → Except String String)
    (users : String → Option UserRecord) (body : CreateLicenseBody) : Option String :=
  match parseCreateLicense body with
  | none => none
  | some v => ((verifyAdmin oracle users v.idToken).fst).toOption

/-! ## Network-Abuse Guard (second file concatenated into admin.ts)

The `ip_bans` and `user_ips` collections are lists of documents in
document order; an equality-filtered query (`where(field, "==", v)`)
returns the matching documents in that order.  `Timestamp`s are `Nat`;
JS `new Date() > expiresAt` is `expiresAt < now` (strict). -/

/-- A document of the `ip_bans` collection (interface `IPBan`);
`expiresAt = none` models an absent field (a permanent ban). -/
structure BanRec where
  ipAddress : String
  reason : String
  bannedAt : Nat
  expiresAt : Option Nat
  deriving Repr, DecidableEq

/-- A document of the `user_ips` collection (interface `UserIP`);
`email = none` models an absent field. -/
structure UserIPRec where
  userId : String
  email : Option String
  ipAddress : String
  recordedAt : Nat
  lastUsed : Nat
  deriving Repr, DecidableEq

/-- The JSON answer of `handleCheckIPBan`. -/
inductive CheckBanResp where
  | missingIP
  | notBanned
  | banned (reason : String) (expiresAt : Option Nat)
  deriving Repr, DecidableEq

/-- `handleCheckIPBan`: reject an empty `ipAddress` (400); scan `ip_bans`
for the address; if no document matches answer `{banned: false}`; else
look at the first matching document (`snapshot.docs[0]`): when it has an
`expiresAt` strictly in the past, delete that document and answer
`{banned: false}`; otherwise answer `{banned: true, reason, expiresAt}`
(with `expiresAt` null when absent).  Returns the answer and the
`ip_bans` collection afterward. -/
def handleCheckIPBan (store : List BanRec) (ipAddress : String) (now : Nat) :
    CheckBanResp × List BanRec :=
  if ipAddress = "" then (.missingIP, store)
  else
    match store.find? (fun r => r.ipAddress = ipAddress) with
    | none => (.notBanned, store)
    | some banDoc =>
        match banDoc.expiresAt with
        | some e =>
            if e < now then
              (.notBanned, store.eraseP (fun r => r.ipAddress = ipAddress))
            else (.banned banDoc.reason (some e), store)
        | none => (.banned banDoc.reason none, store)

/-- The JSON answer of `handleCheckIPLimit`. -/
inductive CheckLimitResp where
  | missingFields
  | counted (accountCount maxAccounts : Nat) (isLimitExceeded : Bool)
  deriving Repr, DecidableEq

/-- The number of `user_ips` documents matching an address. -/
def addrCount (store : List UserIPRec) (ipAddress : String) : Nat :=
  (store.filter (fun r => r.ipAddress = ipAddress)).length

/-- `handleCheckIPLimit`: reject falsy `ipAddress`/`maxAccounts` (400);
count the `user_ips` documents for the address; answer the count together
with `isLimitExceeded = accountCount >= maxAccounts`.  Returns the answer
and the (unchanged) `user_ips` collection. -/
def handleCheckIPLimit (store : List UserIPRec) (ipAddress : String)
    (maxAccounts : Nat) : CheckLimitResp × List UserIPRec :=
  if ipAddress = "" ∨ maxAccounts = 0 then (.missingFields, store)
  else
    (.counted (addrCount store ipAddress) maxAccounts
      (decide (maxAccounts ≤ addrCount store ipAddress)), store)

/-- `handleRecordUserIP`: reject falsy `userId`/`ipAddress` (400);
otherwise unconditionally create a fresh `user_ips` document with
`recordedAt` and `lastUsed` both `now` and `email` defaulted to `""`
(`email || ""`).  The `Bool` is `true` when the success branch ran. -/
def handleRecordUserIP (store : List UserIPRec) (userId : String)
    (email : Option String) (ipAddress : String) (now : Nat) :
    Bool × List UserIPRec :=
  if userId = "" ∨ ipAddress = "" then (false, store)
  else (true, store ++ [⟨userId, some (email.getD ""), ipAddress, now, now⟩])

/-- The loop of `handleUpdateUserIPLogin`: the query filters `user_ips` by
`userId` and the loop breaks at the first document whose `ipAddress` also
matches, so the document updated is the first one in document order
matching both fields; its `lastUsed` is set to `now`.  `none` when no
document matches both. -/
def updateFirstPair (store : List UserIPRec) (userId ipAddress : String)
    (now : Nat) : Option (List UserIPRec) :=
  match store with
  | [] => none
  | r :: rest =>
      if r.userId = userId ∧ r.ipAddress = ipAddress then
        some ({ r with lastUsed := now } :: rest)
      else (updateFirstPair rest userId ipAddress now).map (r :: ·)

/-- `handleUpdateUserIPLogin`: reject falsy `userId`/`ipAddress` (400);
update `lastUsed` of the first document matching the `(userId, ipAddress)`
pair, or, when none matches, create a new document with `recordedAt` and
`lastUsed` both `now` (and no `email` field). -/
def handleUpdateUserIPLogin (store : List UserIPRec) (userId ipAddress : String)
    (now : Nat) : Bool × List UserIPRec :=
  if userId = "" ∨ ipAddress = "" then (false, store)
  else
    match updateFirstPair store userId ipAddress now with
    | some s => (true, s)
    | none => (true, store ++ [⟨userId, none, ipAddress, now, now⟩])

/-- The number of `user_ips` documents linking a `(userId, ipAddress)`
pair. -/
def pairCount (store : List UserIPRec) (userId ipAddress : String) : Nat :=
  (store.filter (fun r => r.userId = userId ∧ r.ipAddress = ipAddress)).length

/-! ## Helper lemmas -/

theorem parseBanUser_some_idToken (b v : BanUserBody)
    (h : parseBanUser b = some v) : v.idToken = b.idToken := by
  unfold parseBanUser at h
  split at h
  · cases hr : reasonCheck b.reason with
    | none => simp [hr] at h
    | some r =>
        simp [hr] at h
        rw [← h]
  · cases h

theorem parseBanIP_some_idToken (ipValid : String → Bool) (b v : BanIPBody)
    (h : parseBanIP ipValid b = some v) : v.idToken = b.idToken := by
  unfold parseBanIP at h
  split at h
  · cases hr : reasonCheck b.reason with
    | none => simp [hr] at h
    | some r =>
        simp [hr] at h
        rw [← h]
  · cases h

theorem parseDeleteUser_some_eq (b v : DeleteUserBody)
    (h : parseDeleteUser b = some v) : v = b := by
  unfold parseDeleteUser at h
  split at h
  · cases h; rfl
  · cases h

theorem parseCreateLicense_some_eq (b v : CreateLicenseBody)
    (h : parseCreateLicense b = some v) : v = b := by
  unfold parseCreateLicense at h
  split at h
  · cases h; rfl
  · cases h

theorem banUserAttribution_verified (oracle : String → Except String String)
    (users : String → Option UserRecord) (b : BanUserBody) (a : String)
    (h : banUserAttribution oracle users b = some a) :
    (verifyAdmin oracle users b.idToken).fst = .ok a := by
  unfold banUserAttribution at h
  cases hp : parseBanUser b with
  | none => simp [hp] at h
  | some v =>
      rw [← parseBanUser_some_idToken b v hp]
      simp only [hp] at h
      cases hv : (verifyAdmin oracle users v.idToken).fst with
      | error e => simp [Except.toOption, hv] at h
      | ok u => exact congrArg Except.ok (Option.some.inj (by simpa [Except.toOption, hv] using h))

theorem banIPAttribution_verified (ipValid : String → Bool)
    (oracle : String → Except String String)
    (users : String → Option UserRecord) (b : BanIPBody) (a : String)
    (h : banIPAttribution ipValid oracle users b = some a) :
    (verifyAdmin oracle users b.idToken).fst = .ok a := by
  unfold banIPAttribution at h
  cases hp : parseBanIP ipValid b with
  | none => simp [hp] at h
  | some v =>
      rw [← parseBanIP_some_idToken ipValid b v hp]
      simp only [hp] at h
      cases hv : (verifyAdmin oracle users v.idToken).fst with
      | error e => simp [Except.toOption, hv] at h
      | ok u => exact congrArg Except.ok (Option.some.inj (by simpa [Except.toOption, hv] using h))

theorem deleteUserAttribution_verified (oracle : String → Except String String)
    (users : String → Option UserRecord) (b : DeleteUserBody) (a : String)
    (h : deleteUserAttribution oracle users b = some a) :
    (verifyAdmin oracle users b.idToken).fst = .ok a := by
  unfold deleteUserAttribution at h
  cases hp : parseDeleteUser b with
  | none => simp [hp] at h
  | some v =>
      rw [show b.idToken = v.idToken by rw [parseDeleteUser_some_eq b v hp]]
      simp only [hp] at h
      cases hv : (verifyAdmin oracle users v.idToken).fst with
      | error e => simp [Except.toOption, hv] at h
      | ok u => exact congrArg Except.ok (Option.some.inj (by simpa [Except.toOption, hv] using h))

theorem createLicenseAttribution_verified (oracle : String → Except String String)
    (users : String → Option UserRecord) (b : CreateLicenseBody) (a : String)
    (h : createLicenseAttribution oracle users b = some a) :
    (verifyAdmin oracle users b.idToken).fst = .ok a := by
  unfold createLicenseAttribution at h
  cases hp : parseCreateLicense b with
  | none => simp [hp] at h
  | some v =>
      rw [show b.idToken = v.idToken by rw [parseCreateLicense_some_eq b v hp]]
      simp only [hp] at h
      cases hv : (verifyAdmin oracle users v.idToken).fst with
      | error e => simp [Except.toOption, hv] at h
      | ok u => exact congrArg Except.ok (Option.some.inj (by simpa [Except.toOption, hv] using h))

/-! ## Witness fixtures -/

/-- Concrete identity provider with one admin token. -/
def oracleW2 : String → Except String String :=
  fun t => if t = "admintoken99" then .ok "uid-admin-1" else .error "bad token"

/-- Concrete users collection with one admin user. -/
def usersW2 : String → Option UserRecord :=
  fun uid => if uid = "uid-admin-1" then some ⟨some true⟩ else none

/-- Concrete identity provider that rejects every token with a
provider-style message. -/
def oracleBadSig : String → Except String String :=
  fun _ => .error "Firebase ID token has incorrect signature"

/-! ## Claim C2 -/

/-- Claim C2: for every moderation request (ban user, ban IP, delete user,
create license), the admin identifier attributed to the operation is
exactly the identifier returned by token verification of the body's
`idToken`; hence, holding the token fixed and varying any other
client-supplied body field never changes which admin identity an executed
operation is attributed to. -/
theorem C2_attribution_token_determined
    (oracle : String → Except String String)
    (users : String → Option UserRecord) (ipValid : String → Bool) :
    (∀ (b : BanUserBody) (a : String),
        banUserAttribution oracle users b = some a →
        (verifyAdmin oracle users b.idToken).fst = .ok a)
    ∧ (∀ (b : BanIPBody) (a : String),
        banIPAttribution ipValid oracle users b = some a →
        (verifyAdmin oracle users b.idToken).fst = .ok a)
    ∧ (∀ (b : DeleteUserBody) (a : String),
        deleteUserAttribution oracle users b = some a →
        (verifyAdmin oracle users b.idToken).fst = .ok a)
    ∧ (∀ (b : CreateLicenseBody) (a : String),
        createLicenseAttribution oracle users b = some a →
        (verifyAdmin oracle users b.idToken).fst = .ok a)
    ∧ (∀ (b1 b2 : BanUserBody) (a1 a2 : String), b1.idToken = b2.idToken →
        banUserAttribution oracle users b1 = some a1 →
        banUserAttribution oracle users b2 = some a2 → a1 = a2)
    ∧ (∀ (b1 b2 : BanIPBody) (a1 a2 : String), b1.idToken = b2.idToken →
        banIPAttribution ipValid oracle users b1 = some a1 →
        banIPAttribution ipValid oracle users b2 = some a2 → a1 = a2)
    ∧ (∀ (b1 b2 : DeleteUserBody) (a1 a2 : String), b1.idToken = b2.idToken →
        deleteUserAttribution oracle users b1 = some a1 →
        deleteUserAttribution oracle users b2 = some a2 → a1 = a2)
    ∧ (∀ (b1 b2 : CreateLicenseBody) (a1 a2 : String), b1.idToken = b2.idToken →
        createLicenseAttribution oracle users b1 = some a1 →
        createLicenseAttribution oracle users b2 = some a2 → a1 = a2) := by
  refine ⟨banUserAttribution_verified oracle users,
    banIPAttribution_verified ipValid oracle users,
    deleteUserAttribution_verified oracle users,
    createLicenseAttribution_verified oracle users, ?_, ?_, ?_, ?_⟩
  · intro b1 b2 a1 a2 ht h1 h2
    have e1 := banUserAttribution_verified oracle users b1 a1 h1
    have e2 := banUserAttribution_verified oracle users b2 a2 h2
    rw [ht] at e1
    rw [e1] at e2
    exact Except.ok.inj e2
  · intro b1 b2 a1 a2 ht h1 h2
    have e1 := banIPAttribution_verified ipValid oracle users b1 a1 h1
    have e2 := banIPAttribution_verified ipValid oracle users b2 a2 h2
    rw [ht] at e1
    rw [e1] at e2
    exact Except.ok.inj e2
  · intro b1 b2 a1 a2 ht h1 h2
    have e1 := deleteUserAttribution_verified oracle users b1 a1 h1
    have e2 := deleteUserAttribution_verified oracle users b2 a2 h2
    rw [ht] at e1
    rw [e1] at e2
    exact Except.ok.inj e2
  · intro b1 b2 a1 a2 ht h1 h2
    have e1 := createLicenseAttribution_verified oracle users b1 a1 h1
    have e2 := createLicenseAttribution_verified oracle users b2 a2 h2
    rw [ht] at e1
    rw [e1] at e2
    exact Except.ok.inj e2

/-- Witness for C2: two concrete ban-user bodies sharing a token but
naming different `userId`s are both attributed to the same admin, and the
attribution is the identifier verified from the token. -/
theorem C2_witness :
    (verifyAdmin oracleW2 usersW2
        (BanUserBody.mk "admintoken99" "target-user-0001" "spam and abuse" 7).idToken).fst
      = .ok "uid-admin-1"
    ∧ ("uid-admin-1" : String) = "uid-admin-1" :=
  ⟨(C2_attribution_token_determined oracleW2 usersW2 (fun _ => true)).1
      ⟨"admintoken99", "target-user-0001", "spam and abuse", 7⟩ "uid-admin-1" (by decide),
    (C2_attribution_token_determined oracleW2 usersW2 (fun _ => true)).2.2.2.2.1
      ⟨"admintoken99", "target-user-0001", "spam and abuse", 7⟩
      ⟨"admintoken99", "other-target-02", "different text", 30⟩
      "uid-admin-1" "uid-admin-1" rfl (by decide) (by decide)⟩

/-! ## Claim C3 -/

/-- Counterexample to claim C3 as stated: two privileged requests through
`handleVerifyAdmin`, one failing token verification (`TokenInvalid`) and
one failing the privilege gate (`NotAdmin`), receive different response
bodies — the `message` field carries the underlying error's message, so an
external caller can tell which check failed. -/
theorem C3_counterexample :
    (handleVerifyAdmin oracleBadSig usersW ⟨"tok-abcdefgh"⟩).fst
      = .failure 401 "Unauthorized" "Firebase ID token has incorrect signature"
    ∧ (handleVerifyAdmin oracleW usersW ⟨"tok-abcdefgh"⟩).fst
      = .failure 401 "Unauthorized" "Unauthorized: Not an admin"
    ∧ (handleVerifyAdmin oracleBadSig usersW ⟨"tok-abcdefgh"⟩).fst
      ≠ (handleVerifyAdmin oracleW usersW ⟨"tok-abcdefgh"⟩).fst := by
  exact ⟨by decide, by decide, by decide⟩

/-- Claim C3 amended: for every privileged request that fails
authentication or authorization, the HTTP status (401) and the `error`
field ("Unauthorized") are the same whether the failure was `TokenInvalid`
or `NotAdmin`, but the `message` field carries the underlying error's own
message (the provider's text for `TokenInvalid`,
"Unauthorized: Not an admin" for `NotAdmin`), so the response bodies of
the two failures can differ. -/
theorem C3_amended (oracle : String → Except String String)
    (users : String → Option UserRecord) (body : VerifyAdminBody)
    (v : VerifyAdminBody) (hp : parseVerifyAdmin body = some v)
    (e : AdminError) (effs : List Effect)
    (hv : verifyAdmin oracle users v.idToken = (.error e, effs)) :
    (handleVerifyAdmin oracle users body).fst
      = .failure 401 "Unauthorized" (errorMessage e) := by
  simp only [handleVerifyAdmin, hp, hv]

/-- Witness for C3 amended: the concrete `NotAdmin` run answers 401 with
the generic `error` field and the underlying message. -/
theorem C3_witness :
    (handleVerifyAdmin oracleW usersW ⟨"tok-abcdefgh"⟩).fst
      = .failure 401 "Unauthorized" (errorMessage .notAdmin) :=
  C3_amended oracleW usersW ⟨"tok-abcdefgh"⟩ ⟨"tok-abcdefgh"⟩ (by decide)
    .notAdmin [.oracleVerify "tok-abcdefgh", .storeGet "users" "uid-nonadmin"]
    rfl

/-! ## Claim C4 -/

/-- Claim C4 fails on the code: `handleGetAllUsers` checks only the length
bounds of the bearer token, never the charset, so the charset-violating
token `"!!!!!!!!!!"` (length 10) is forwarded to the identity provider —
an external call is made for a request the input validator was claimed to
reject.  The five schema-validated endpoints do reject such tokens before
any external call; the conjuncts evaluate the code at the failing input. -/
theorem C4_getAllUsers_skips_charset_check :
    tokenOK "!!!!!!!!!!" = false
    ∧ (handleGetAllUsers oracleBadSig usersW (some "Bearer !!!!!!!!!!")).snd
        = [.oracleVerify "!!!!!!!!!!"]
    ∧ (handleVerifyAdmin oracleBadSig usersW ⟨"!!!!!!!!!!"⟩).snd = [] := by
  exact ⟨by decide, by decide, by decide⟩

/-! ## Claim C5 -/

/-- Counterexample to claim C5 as stated: the reason `"  ab  "` has
untrimmed length 6 (≥ 5) but trimmed length 2 (< 5); the claim says
validation rejects it, yet `BanUserSchema.parse` accepts the body and
returns the trimmed reason `"ab"`. -/
theorem C5_counterexample :
    parseBanUser ⟨"abcdefghij", "user-12345", "  ab  ", 1⟩
      = some ⟨"abcdefghij", "user-12345", "ab", 1⟩
    ∧ 5 ≤ ("  ab  " : String).length
    ∧ (jsTrim "  ab  ").length < 5 := by
  exact ⟨by decide, by decide, by decide⟩

/-- Claim C5 amended: for the free-text reason of ban-user and ban-IP
requests, the length bounds 5–500 are checked against the *untrimmed*
string and leading/trailing whitespace is stripped only afterwards, so the
validated output is trimmed but a reason whose untrimmed form is within
bounds is accepted even when its trimmed form is shorter than 5
characters; a reason whose untrimmed form is out of bounds is rejected. -/
theorem C5_amended (b : BanUserBody) (c : BanIPBody) (ipValid : String → Bool)
    (hb1 : tokenOK b.idToken = true) (hb2 : userIdOK b.userId = true)
    (hb3 : durationOK b.duration = true)
    (hc1 : tokenOK c.idToken = true) (hc2 : ipValid c.ipAddress = true)
    (hc3 : durationOK c.duration = true) :
    ((5 ≤ b.reason.length ∧ b.reason.length ≤ 500) →
        parseBanUser b = some { b with reason := jsTrim b.reason })
    ∧ (¬ (5 ≤ b.reason.length ∧ b.reason.length ≤ 500) →
        parseBanUser b = none)
    ∧ ((5 ≤ c.reason.length ∧ c.reason.length ≤ 500) →
        parseBanIP ipValid c = some { c with reason := jsTrim c.reason })
    ∧ (¬ (5 ≤ c.reason.length ∧ c.reason.length ≤ 500) →
        parseBanIP ipValid c = none) := by
  refine ⟨?_, ?_, ?_, ?_⟩
  · intro hlen
    simp [parseBanUser, reasonCheck, hb1, hb2, hb3, hlen]
  · intro hlen
    simp [parseBanUser, reasonCheck, hb1, hb2, hb3, hlen]
  · intro hlen
    simp [parseBanIP, reasonCheck, hc1, hc2, hc3, hlen]
  · intro hlen
    simp [parseBanIP, reasonCheck, hc1, hc2, hc3, hlen]

/-- Witness for C5 amended: a concrete in-bounds reason with surrounding
whitespace is accepted with the trimmed output. -/
theorem C5_witness :
    parseBanUser ⟨"abcdefghij", "user-12345", " spam here ", 1⟩
      = some ⟨"abcdefghij", "user-12345", "spam here", 1⟩ :=
  (C5_amended ⟨"abcdefghij", "user-12345", " spam here ", 1⟩
      ⟨"abcdefghij", "1.2.3.4", " spam here ", 1⟩ (fun _ => true)
      (by decide) (by decide) (by decide) (by decide) (by decide) (by decide)).1
    (by decide)

/-! ## List helper lemmas -/

theorem find_append_first {α : Type} (p : α → Bool) (pre post : List α) (r : α)
    (hpre : ∀ x ∈ pre, ¬ p x = true) (hr : p r = true) :
    (pre ++ r :: post).find? p = some r := by
  induction pre with
  | nil => rw [List.nil_append, List.find?_cons_of_pos _ hr]
  | cons x xs ih =>
      rw [List.cons_append, List.find?_cons_of_neg _ (hpre x (by simp))]
      exact ih fun y hy => hpre y (by simp [hy])

theorem eraseP_append_first {α : Type} (p : α → Bool) (pre post : List α) (r : α)
    (hpre : ∀ x ∈ pre, ¬ p x = true) (hr : p r = true) :
    (pre ++ r :: post).eraseP p = pre ++ post := by
  induction pre with
  | nil => simp [List.eraseP_cons_of_pos hr]
  | cons x xs ih =>
      rw [List.cons_append, List.eraseP_cons_of_neg (hpre x (by simp)),
        ih fun y hy => hpre y (by simp [hy]), List.cons_append]

theorem pairCount_eq_zero_iff (store : List UserIPRec) (u a : String) :
    pairCount store u a = 0
      ↔ ∀ x ∈ store, ¬ (x.userId = u ∧ x.ipAddress = a) := by
  unfold pairCount
  rw [List.length_eq_zero, List.filter_eq_nil_iff]
  simp

theorem pairCount_append (l1 l2 : List UserIPRec) (u a : String) :
    pairCount (l1 ++ l2) u a = pairCount l1 u a + pairCount l2 u a := by
  unfold pairCount
  rw [List.filter_append, List.length_append]

theorem updateFirstPair_eq_none (store : List UserIPRec) (u a : String) (t : Nat)
    (h : ∀ x ∈ store, ¬ (x.userId = u ∧ x.ipAddress = a)) :
    updateFirstPair store u a t = none := by
  induction store with
  | nil => rfl
  | cons r rest ih =>
      have hr := h r (by simp)
      simp only [updateFirstPair, if_neg hr,
        ih fun x hx => h x (by simp [hx]), Option.map_none']

theorem updateFirstPair_first (u a : String) (t : Nat)
    (pre post : List UserIPRec) (r : UserIPRec)
    (hpre : ∀ x ∈ pre, ¬ (x.userId = u ∧ x.ipAddress = a))
    (hr : r.userId = u ∧ r.ipAddress = a) :
    updateFirstPair (pre ++ r :: post) u a t
      = some (pre ++ { r with lastUsed := t } :: post) := by
  induction pre with
  | nil => simp only [List.nil_append, updateFirstPair, if_pos hr]
  | cons x xs ih =>
      have hx := hpre x (by simp)
      simp only [List.cons_append, updateFirstPair, if_neg hx, List.append_eq,
        ih fun y hy => hpre y (by simp [hy]), Option.map_some']

/-! ## Claim C6 -/

/-- Counterexample to claim C6 as stated: the endpoint that takes the
spec's `recordAddressUsage` signature `(userId, address, email?)` —
`handleRecordUserIP` — is not an idempotent upsert: calling it twice for
the same `(userId, address)` pair creates two Address-Usage Records. -/
theorem C6_counterexample :
    pairCount
      ((handleRecordUserIP
          ((handleRecordUserIP [] "user-000000001" (some "a@b.c") "1.2.3.4" 5).snd)
          "user-000000001" (some "a@b.c") "1.2.3.4" 9).snd)
      "user-000000001" "1.2.3.4" = 2 := by decide

/-- Claim C6 amended: the idempotent upsert is `handleUpdateUserIPLogin`
(which carries no email field), not the email-carrying
`handleRecordUserIP` (which always creates a new record).  For
`handleUpdateUserIPLogin`: if a record already links the exact
`(userId, address)` pair, only its `lastUsed` is refreshed and no new
record is created; otherwise one new record is created with `recordedAt`
and `lastUsed` both now; calling it twice for the same pair leaves exactly
one record for that pair, with `lastUsed` updated and `recordedAt`
unchanged. -/
theorem C6_updateUserIPLogin_upsert (store : List UserIPRec) (u a : String)
    (t1 t2 : Nat) (hu : u ≠ "") (ha : a ≠ "") :
    (pairCount store u a = 0 →
        (handleUpdateUserIPLogin store u a t1).snd
          = store ++ [⟨u, none, a, t1, t1⟩])
    ∧ (∀ pre r post, store = pre ++ r :: post →
        (∀ x ∈ pre, ¬ (x.userId = u ∧ x.ipAddress = a)) →
        r.userId = u → r.ipAddress = a →
        (handleUpdateUserIPLogin store u a t2).snd
          = pre ++ { r with lastUsed := t2 } :: post)
    ∧ (pairCount store u a = 0 →
        (handleUpdateUserIPLogin (handleUpdateUserIPLogin store u a t1).snd
            u a t2).snd = store ++ [⟨u, none, a, t1, t2⟩]
        ∧ pairCount ((handleUpdateUserIPLogin
              (handleUpdateUserIPLogin store u a t1).snd u a t2).snd) u a
            = 1) := by
  have hguard : ¬ (u = "" ∨ a = "") := by
    intro hc
    cases hc with
    | inl h => exact hu h
    | inr h => exact ha h
  have step1 : ∀ t, pairCount store u a = 0 →
      (handleUpdateUserIPLogin store u a t).snd
        = store ++ [⟨u, none, a, t, t⟩] := by
    intro t h0
    have hnone := updateFirstPair_eq_none store u a t
      ((pairCount_eq_zero_iff store u a).1 h0)
    simp only [handleUpdateUserIPLogin, if_neg hguard, hnone]
  refine ⟨step1 t1, ?_, ?_⟩
  · intro pre r post hs hpre hr1 hr2
    subst hs
    have hupd := updateFirstPair_first u a t2 pre post r hpre ⟨hr1, hr2⟩
    simp only [handleUpdateUserIPLogin, if_neg hguard, hupd]
  · intro h0
    have h1 := step1 t1 h0
    have hpre := (pairCount_eq_zero_iff store u a).1 h0
    have h2 := updateFirstPair_first u a t2 store []
      ⟨u, none, a, t1, t1⟩ hpre ⟨rfl, rfl⟩
    have hfinal : (handleUpdateUserIPLogin
        (handleUpdateUserIPLogin store u a t1).snd u a t2).snd
        = store ++ [⟨u, none, a, t1, t2⟩] := by
      rw [h1]
      simp only [handleUpdateUserIPLogin, if_neg hguard, h2]
    refine ⟨hfinal, ?_⟩
    rw [hfinal, pairCount_append, h0]
    simp [pairCount]

/-- Witness for C6 amended: two concrete calls for the same pair on an
empty collection leave exactly one record, `recordedAt` from the first
call and `lastUsed` from the second. -/
theorem C6_witness :
    (handleUpdateUserIPLogin
        (handleUpdateUserIPLogin [] "user-000000001" "1.2.3.4" 5).snd
        "user-000000001" "1.2.3.4" 9).snd
      = [⟨"user-000000001", none, "1.2.3.4", 5, 9⟩]
    ∧ pairCount
        ((handleUpdateUserIPLogin
            (handleUpdateUserIPLogin [] "user-000000001" "1.2.3.4" 5).snd
            "user-000000001" "1.2.3.4" 9).snd)
        "user-000000001" "1.2.3.4" = 1 := by
  have h := (C6_updateUserIPLogin_upsert [] "user-000000001" "1.2.3.4" 5 9
    (by decide) (by decide)).2.2 (by decide)
  simpa using h

/-! ## Claim C7 -/

/-- Claim C7: `checkBan` behaves in exactly three cases.  No Ban Record
for the address: reports not banned, store unchanged.  The Ban Record for
the address (the first matching document, unique matches being the data
model's intent) has `expiresAt` strictly in the past: that record is
deleted and the report is not banned.  The record is unexpired: reports
banned with the stored reason and expiry, store unchanged. -/
theorem C7_checkBan_three_cases (store : List BanRec) (ip : String)
    (now : Nat) (hip : ip ≠ "") :
    ((∀ x ∈ store, x.ipAddress ≠ ip) →
        handleCheckIPBan store ip now = (.notBanned, store))
    ∧ (∀ pre r post e, store = pre ++ r :: post →
        (∀ x ∈ pre, x.ipAddress ≠ ip) → r.ipAddress = ip →
        r.expiresAt = some e → e < now →
        handleCheckIPBan store ip now = (.notBanned, pre ++ post))
    ∧ (∀ pre r post e, store = pre ++ r :: post →
        (∀ x ∈ pre, x.ipAddress ≠ ip) → r.ipAddress = ip →
        r.expiresAt = some e → ¬ e < now →
        handleCheckIPBan store ip now = (.banned r.reason (some e), store)) := by
  refine ⟨?_, ?_, ?_⟩
  · intro h
    have hf : store.find? (fun r => r.ipAddress = ip) = none :=
      List.find?_eq_none.2 fun x hx => by simpa using h x hx
    simp only [handleCheckIPBan, if_neg hip, hf]
  · intro pre r post e hs hpre hr hexp hlt
    subst hs
    have hf := find_append_first (fun r => decide (r.ipAddress = ip)) pre post r
      (fun x hx => by simpa using hpre x hx) (by simpa using hr)
    have he := eraseP_append_first (fun r => decide (r.ipAddress = ip)) pre post r
      (fun x hx => by simpa using hpre x hx) (by simpa using hr)
    simp only [handleCheckIPBan, if_neg hip, hf, hexp, if_pos hlt, he]
  · intro pre r post e hs hpre hr hexp hlt
    subst hs
    have hf := find_append_first (fun r => decide (r.ipAddress = ip)) pre post r
      (fun x hx => by simpa using hpre x hx) (by simpa using hr)
    simp only [handleCheckIPBan, if_neg hip, hf, hexp, if_neg hlt]

/-- Witness for C7: a concrete expired Ban Record is deleted and reported
not banned. -/
theorem C7_witness :
    handleCheckIPBan [⟨"1.2.3.4", "spam spam", 0, some 10⟩] "1.2.3.4" 11
      = (.notBanned, []) := by
  have h := (C7_checkBan_three_cases [⟨"1.2.3.4", "spam spam", 0, some 10⟩]
      "1.2.3.4" 11 (by decide)).2.1
    [] ⟨"1.2.3.4", "spam spam", 0, some 10⟩ [] 10 rfl
    (by intro x hx; cases hx) rfl rfl (by decide)
  simpa using h

/-! ## Claim C9 -/

/-- Claim C9: for every address and every (truthy) `maxAccounts`,
`checkAddressLimit` answers the count of Address-Usage Records for the
address together with `limitExceeded = count >= maxAccounts`, and writes
nothing to the store; in particular with `maxAccounts = 3` it answers
`limitExceeded = true` at exactly 3 records and `false` at 2. -/
theorem C9_checkIPLimit_read_only (store : List UserIPRec) (ip : String)
    (maxAccounts : Nat) (hip : ip ≠ "") (hmax : maxAccounts ≠ 0) :
    handleCheckIPLimit store ip maxAccounts
      = (.counted (addrCount store ip) maxAccounts
          (decide (maxAccounts ≤ addrCount store ip)), store)
    ∧ (addrCount store ip = 3 →
        handleCheckIPLimit store ip 3 = (.counted 3 3 true, store))
    ∧ (addrCount store ip = 2 →
        handleCheckIPLimit store ip 3 = (.counted 2 3 false, store)) := by
  refine ⟨?_, ?_, ?_⟩
  · simp [handleCheckIPLimit, hip, hmax]
  · intro h3
    simp [handleCheckIPLimit, hip, h3]
  · intro h2
    simp [handleCheckIPLimit, hip, h2]

/-- Witness for C9: with exactly three concrete records for an address,
the limit 3 is reported exceeded; the store is returned unchanged. -/
theorem C9_witness :
    handleCheckIPLimit
        [⟨"user-aaaaaaaaa1", some "", "9.9.9.9", 1, 1⟩,
         ⟨"user-aaaaaaaaa2", some "", "9.9.9.9", 2, 2⟩,
         ⟨"user-aaaaaaaaa3", some "", "9.9.9.9", 3, 3⟩]
        "9.9.9.9" 3
      = (.counted 3 3 true,
         [⟨"user-aaaaaaaaa1", some "", "9.9.9.9", 1, 1⟩,
          ⟨"user-aaaaaaaaa2", some "", "9.9.9.9", 2, 2⟩,
          ⟨"user-aaaaaaaaa3", some "", "9.9.9.9", 3, 3⟩]) :=
  (C9_checkIPLimit_read_only
      [⟨"user-aaaaaaaaa1", some "", "9.9.9.9", 1, 1⟩,
       ⟨"user-aaaaaaaaa2", some "", "9.9.9.9", 2, 2⟩,
       ⟨"user-aaaaaaaaa3", some "", "9.9.9.9", 3, 3⟩]
      "9.9.9.9" 3 (by decide) (by decide)).2.1 (by decide)

/-! ## Claim C10 -/

/-- Claim C10: a Ban Record with no `expiresAt` field is a permanent ban:
for every current time, `checkBan` reports banned with a null expiry and
never deletes the record — lazy expiry applies only to records carrying an
`expiresAt` timestamp. -/
theorem C10_permanent_ban_never_expires (store : List BanRec) (ip : String)
    (now : Nat) (hip : ip ≠ "") (pre : List BanRec) (r : BanRec)
    (post : List BanRec) (hs : store = pre ++ r :: post)
    (hpre : ∀ x ∈ pre, x.ipAddress ≠ ip) (hr : r.ipAddress = ip)
    (hperm : r.expiresAt = none) :
    handleCheckIPBan store ip now = (.banned r.reason none, store) := by
  subst hs
  have hf := find_append_first (fun r => decide (r.ipAddress = ip)) pre post r
    (fun x hx => by simpa using hpre x hx) (by simpa using hr)
  simp only [handleCheckIPBan, if_neg hip, hf, hperm]

/-- Witness for C10: a concrete permanent Ban Record is reported banned
with null expiry at a late time and remains stored. -/
theorem C10_witness :
    handleCheckIPBan [⟨"5.6.7.8", "abuse here", 0, none⟩] "5.6.7.8" 999999
      = (.banned "abuse here" none, [⟨"5.6.7.8", "abuse here", 0, none⟩]) :=
  C10_permanent_ban_never_expires [⟨"5.6.7.8", "abuse here", 0, none⟩]
    "5.6.7.8" 999999 (by decide) [] ⟨"5.6.7.8", "abuse here", 0, none⟩ [] rfl
    (by intro x hx; cases hx) rfl rfl

/-! ## Claim C8 -/

/-- Counterexample to claim C8 as stated: `handleDeleteUser` on a valid
admin token and a non-existent target answers status 401, not the claimed
400 — its catch block maps only `ZodError` to 400, with no
"User not found" special case. -/
theorem C8_counterexample :
    (handleDeleteUser oracleW2 usersW2 ⟨"admintoken99", "ghost-user-0001"⟩).fst
      = .failure 401 "Failed to delete user" "User not found"
    ∧ (handleDeleteUser oracleW2 usersW2 ⟨"admintoken99", "ghost-user-0001"⟩).fst
      ≠ .failure 400 "Failed to delete user" "User not found" := by
  exact ⟨by decide, by decide⟩

/-- Claim C8 amended: every moderation endpoint answers an `{error,
message}` body with status 400 for input-validation failures and 401 for
authentication/authorization failures; a non-existent target is reported
as 400 by `handleBanUser` (its catch block special-cases the message
"User not found") but as 401 by `handleDeleteUser` (whose catch block maps
only `ZodError` to 400). -/
theorem C8_statuses (oracle : String → Except String String)
    (users : String → Option UserRecord) (ipValid : String → Bool) :
    (∀ b : VerifyAdminBody, parseVerifyAdmin b = none →
        (handleVerifyAdmin oracle users b).fst
          = .failure 400 "Unauthorized" zodMessage)
    ∧ (∀ b : BanUserBody, parseBanUser b = none →
        (handleBanUser oracle users b).fst
          = .failure 400 "Failed to ban user" zodMessage)
    ∧ (∀ b : BanIPBody, parseBanIP ipValid b = none →
        (handleBanIP ipValid oracle users b).fst
          = .failure 400 "Failed to ban IP" zodMessage)
    ∧ (∀ b : CreateLicenseBody, parseCreateLicense b = none →
        (handleCreateLicense oracle users b).fst
          = .failure 400 "Failed to create license" zodMessage)
    ∧ (∀ b : DeleteUserBody, parseDeleteUser b = none →
        (handleDeleteUser oracle users b).fst
          = .failure 400 "Failed to delete user" zodMessage)
    ∧ (∀ (b : BanUserBody) v e effs, parseBanUser b = some v →
        verifyAdmin oracle users v.idToken = (.error e, effs) →
        errorMessage e ≠ "User not found" →
        (handleBanUser oracle users b).fst
          = .failure 401 "Failed to ban user" (errorMessage e))
    ∧ (∀ (b : DeleteUserBody) v e effs, parseDeleteUser b = some v →
        verifyAdmin oracle users v.idToken = (.error e, effs) →
        (handleDeleteUser oracle users b).fst
          = .failure 401 "Failed to delete user" (errorMessage e))
    ∧ (∀ (b : BanUserBody) v a effs, parseBanUser b = some v →
        verifyAdmin oracle users v.idToken = (.ok a, effs) →
        users v.userId = none →
        (handleBanUser oracle users b).fst
          = .failure 400 "Failed to ban user" "User not found")
    ∧ (∀ (b : DeleteUserBody) v a effs, parseDeleteUser b = some v →
        verifyAdmin oracle users v.idToken = (.ok a, effs) →
        users v.userId = none →
        (handleDeleteUser oracle users b).fst
          = .failure 401 "Failed to delete user" "User not found") := by
  refine ⟨?_, ?_, ?_, ?_, ?_, ?_, ?_, ?_, ?_⟩
  · intro b hp
    simp only [handleVerifyAdmin, hp]
  · intro b hp
    simp only [handleBanUser, hp]
  · intro b hp
    simp only [handleBanIP, hp]
  · intro b hp
    simp only [handleCreateLicense, hp]
  · intro b hp
    simp only [handleDeleteUser, hp]
  · intro b v e effs hp hv hm
    simp only [handleBanUser, hp, hv, banUserStatus, if_neg hm]
  · intro b v e effs hp hv
    simp only [handleDeleteUser, hp, hv]
  · intro b v a effs hp hv ht
    simp [handleBanUser, hp, hv, banUserOp, ht, banUserStatus]
  · intro b v a effs hp hv ht
    simp only [handleDeleteUser, hp, hv, deleteUserOp, ht]

/-- Witness for C8 amended: `handleBanUser` with the same valid admin
token and the same missing target answers the 400 the design reserves for
target-not-found, in contrast to the delete endpoint. -/
theorem C8_witness :
    (handleBanUser oracleW2 usersW2
        ⟨"admintoken99", "ghost-user-0001", "spam and abuse", 3⟩).fst
      = .failure 400 "Failed to ban user" "User not found" :=
  (C8_statuses oracleW2 usersW2 (fun _ => true)).2.2.2.2.2.2.2.1
    ⟨"admintoken99", "ghost-user-0001", "spam and abuse", 3⟩
    ⟨"admintoken99", "ghost-user-0001", "spam and abuse", 3⟩
    "uid-admin-1"
    [.oracleVerify "admintoken99", .storeGet "users" "uid-admin-1"]
    (by decide) rfl (by decide)

end AdminCore
